import Mathlib

/-!
Shallow embedding of `src/dynalloc.c`, a first-fit dynamic memory allocator
with a doubly linked block directory kept in the heap itself.

Modelling conventions:
* Addresses and `size_t` values are `Nat`; every arithmetic step the C code
  performs on `size_t` or on pointers is reduced modulo `W = 2^64` (LP64).
* `HEADER_SIZE = 32` is `sizeof(Header)` on LP64 (two pointers, a `size_t`
  and a `char`, padded); `PTR_SIZE = 8` is `sizeof(Header*)`, which is what
  the the expression `sizeof(header)` in `split_block` actually denotes.
* Header memory is an association list from addresses to `Header` records;
  a read through an address that holds no tracked header, or through a null
  pointer, is undefined behaviour and the embedding returns `none` (crash).
  Loops carry explicit fuel; fuel exhaustion is also `none`.
* `sbrk` is modelled with an explicit `deny` flag: when the OS denies the
  request, the C call returns `(void*)-1`, i.e. `SENTINEL = 2^64 - 1`,
  and the break is unchanged, exactly as the real call behaves.
* Data bytes live in a separate byte map `BMem` (only `copy_data` touches
  them); an uninitialised byte reads as 0.
-/

namespace Dynalloc

/-- Modulus of `size_t` and of pointer arithmetic on LP64. -/
def W : Nat := 2 ^ 64

/-- sizeof(Header) on LP64: next (8) + prev (8) + size (8) + free (1), padded to 32. -/
def HEADER_SIZE : Nat := 32

/-- sizeof(Header*), the value the C expression `sizeof(header)` in `split_block` denotes. -/
def PTR_SIZE : Nat := 8

/-- MIN_BLOCK_SIZE from the source. -/
def MIN_BLOCK_SIZE : Nat := 32

/-- The address `(void*)-1` that `sbrk` returns when the OS denies the request. -/
def SENTINEL : Nat := W - 1

/-- The spec's `header_overhead`: the space a header occupies in front of its data. -/
def header_overhead : Nat := HEADER_SIZE

/-- Wrapping subtraction `(a - b) mod 2^64`, the `size_t` subtraction of the C code. -/
def submod (a b : Nat) : Nat := (a + (W - b % W)) % W

/-- The `Header` struct of the source: forward and backward links (null = `none`),
the data size in bytes, and the free flag. -/
structure Header where
  next : Option Nat
  prev : Option Nat
  size : Nat
  free : Bool
deriving DecidableEq, Repr

/-- Header memory: tracked headers, keyed by address. -/
abbrev Mem := List (Nat × Header)

/-- Read the header stored at address `a`, if any. -/
def mget : Mem → Nat → Option Header
  | [], _ => none
  | (b, g) :: rest, a => if a = b then some g else mget rest a

/-- Store header `h` at address `a` (overwrite in place, or add the address). -/
def mupd : Mem → Nat → Header → Mem
  | [], a, h => [(a, h)]
  | (b, g) :: rest, a, h => if a = b then (a, h) :: rest else (b, g) :: mupd rest a h

/-- Embedding of `merge_blocks` (dynalloc.c lines 35-43).  The C statements, in
order: pick `first_header`/`second_header` as the pointer min/max; write
`first_header->size = sizeof(Header) + head1->size + head2->size` (both sizes
read before the write); write `first_header->next = second_header->next`;
if that successor is non-null, repoint its `prev`.  Returns the surviving
(lower) header's address. -/
def merge_blocks (m : Mem) (head1 head2 : Nat) : Option (Mem × Nat) :=
  let fh := if head1 > head2 then head2 else head1
  let sh := if head1 > head2 then head1 else head2
  match mget m head1, mget m head2 with
  | some h1, some h2 =>
    let fhd := if head1 > head2 then h2 else h1
    let m1 := mupd m fh { fhd with size := (HEADER_SIZE + h1.size + h2.size) % W }
    match mget m1 sh with
    | some shd =>
      match mget m1 fh with
      | some fhd1 =>
        let m2 := mupd m1 fh { fhd1 with next := shd.next }
        match mget m2 sh with
        | some shd2 =>
          match shd2.next with
          | none => some (m2, fh)
          | some nx =>
            match mget m2 nx with
            | none => none
            | some nxh => some (mupd m2 nx { nxh with prev := some fh }, fh)
        | none => none
      | none => none
    | none => none
  | _, _ => none

/-- Embedding of `split_block` (dynalloc.c lines 52-64).  Note two properties
of the source, reproduced faithfully here: the remainder size is
`header->size - new_size - sizeof(header)` where `sizeof(header)` is the size
of a *pointer* (8), computed in wrapping `size_t` arithmetic, and
`header->size` is never truncated to `new_size`.  The statement
`(header->next)->prev = new_header` dereferences `header->next` without a
null check, so a passing split of a tail block crashes (`none`). -/
def split_block (m : Mem) (header new_size : Nat) : Option (Mem × Option Nat) :=
  match mget m header with
  | none => none
  | some hd =>
    let new_block_size := submod (submod hd.size new_size) PTR_SIZE
    if new_block_size < MIN_BLOCK_SIZE then
      some (m, none)
    else
      let new_header := (header + HEADER_SIZE + new_size) % W
      let m1 := mupd m new_header
        { prev := some header, next := hd.next, size := new_block_size, free := true }
      match mget m1 header with
      | none => none
      | some hd1 =>
        match hd1.next with
        | none => none
        | some nxt =>
          match mget m1 nxt with
          | none => none
          | some nxtHd =>
            let m2 := mupd m1 nxt { nxtHd with prev := some new_header }
            match mget m2 header with
            | none => none
            | some hd2 =>
              some (mupd m2 header { hd2 with next := some new_header }, some new_header)

/-- Process-wide allocator state: the tracked headers, the global `first`
pointer (dynalloc.c line 27) and the current program break. -/
structure St where
  mem : Mem
  first : Option Nat
  brk : Nat
deriving DecidableEq, Repr

/-- Embedding of `sbrk(n)`: on success returns the old break and advances it
by `n` (mod `W`); when the OS denies the request it returns `(void*)-1`
(`SENTINEL`) and the break is unchanged. -/
def sbrk (st : St) (n : Nat) (deny : Bool) : St × Nat :=
  if deny then (st, SENTINEL) else ({ st with brk := (st.brk + n) % W }, st.brk)

/-- The inner coalescing loop of `malloc` (dynalloc.c lines 89-94):
`while(1){ if(curr->free && curr->next != NULL && (curr->next)->free)
curr = merge_blocks(curr, curr->next); else break; }`. -/
def mallocMergeLoop (m : Mem) (curr : Nat) : Nat → Option (Mem × Nat)
  | 0 => none
  | fuel + 1 =>
    match mget m curr with
    | none => none
    | some hd =>
      if hd.free then
        match hd.next with
        | none => some (m, curr)
        | some nx =>
          match mget m nx with
          | none => none
          | some nxh =>
            if nxh.free then
              match merge_blocks m curr nx with
              | none => none
              | some (m', c') => mallocMergeLoop m' c' fuel
            else some (m, curr)
      else some (m, curr)

/-- The heap-extension tail of `malloc` (dynalloc.c lines 104-112): request
`size + sizeof(Header)` bytes (the result of `sbrk` is *not* checked for
failure), build an in-use header there with `prev = last` and `next = NULL`
(nothing ever sets `last->next`), set `first` if the directory was empty, and
return the data pointer `new_block + 1`. -/
def extendHeap (st : St) (size : Nat) (last : Option Nat) (deny : Bool) :
    Option (St × Nat) :=
  let p := sbrk st ((size + HEADER_SIZE) % W) deny
  let addr := p.2
  let m1 := mupd p.1.mem addr { prev := last, next := none, size := size, free := false }
  let st2 : St := { p.1 with mem := m1 }
  let st3 := if st2.first = none then { st2 with first := some addr } else st2
  some (st3, (addr + HEADER_SIZE) % W)

/-- The first-fit scan of `malloc` (dynalloc.c lines 86-102): at each block run
the coalescing loop, then if the block is free and large enough, split off the
excess (the result of `split_block` is ignored, but a crash propagates), clear
the free flag and return `curr + 1`; otherwise advance.  When the scan
exhausts the list, extend the heap. -/
def mallocScan (st : St) (size : Nat) (last curr : Option Nat) (deny : Bool) :
    Nat → Option (St × Nat)
  | 0 => none
  | fuel + 1 =>
    match curr with
    | none => extendHeap st size last deny
    | some c =>
      match mallocMergeLoop st.mem c fuel with
      | none => none
      | some (m', c') =>
        match mget m' c' with
        | none => none
        | some hd =>
          if hd.free ∧ size ≤ hd.size then
            match split_block m' c' size with
            | none => none
            | some (m'', _) =>
              match mget m'' c' with
              | none => none
              | some hd'' =>
                some ({ st with mem := mupd m'' c' { hd'' with free := false } },
                      (c' + HEADER_SIZE) % W)
          else
            mallocScan { st with mem := m' } size (some c') hd.next deny fuel

/-- Embedding of `malloc` (dynalloc.c lines 79-113): clamp the request up to
`MIN_BLOCK_SIZE`, then run the first-fit scan from `first`. -/
def malloc (st : St) (size : Nat) (deny : Bool) (fuel : Nat) : Option (St × Nat) :=
  let sz := if size < MIN_BLOCK_SIZE then MIN_BLOCK_SIZE else size
  mallocScan st sz none st.first deny fuel

/-- The backward walk shared by `free` (dynalloc.c lines 127-136) and
`free_with_caution` (lines 154-162): starting from the freed tail block, walk
back while the predecessor is free; if the walk reaches `first`, empty the
directory; finally set the break to the surviving start of the free run. -/
def backWalk (st : St) (curr : Nat) : Nat → Option St
  | 0 => none
  | fuel + 1 =>
    if st.first = some curr then
      some { st with first := none, brk := curr }
    else
      match mget st.mem curr with
      | none => none
      | some hd =>
        match hd.prev with
        | none => none
        | some p =>
          match mget st.mem p with
          | none => none
          | some ph =>
            if ph.free then backWalk st p fuel
            else some { st with brk := curr }

/-- Embedding of `free` (dynalloc.c lines 120-138): a null pointer is a no-op;
otherwise recover the header at `address - 1`, set its free flag, and if it is
the tail run the backward walk and release the trailing free run. -/
def free (st : St) (address : Option Nat) (fuel : Nat) : Option St :=
  match address with
  | none => some st
  | some a =>
    let header := submod a HEADER_SIZE
    match mget st.mem header with
    | none => none
    | some hd =>
      let st1 : St := { st with mem := mupd st.mem header { hd with free := true } }
      match hd.next with
      | some _ => some st1
      | none => backWalk st1 header fuel

/-- The scan loop of `free_with_caution` (dynalloc.c lines 150-167): walk the
directory; only if some tracked header equals the recovered address, free it
(and run the tail walk); reaching the end of the list is a silent no-op. -/
def fwcLoop (st : St) (target : Nat) : Option Nat → Nat → Option St
  | none, _ => some st
  | some _, 0 => none
  | some c, fuel + 1 =>
    if c = target then
      match mget st.mem c with
      | none => none
      | some hd =>
        let st1 : St := { st with mem := mupd st.mem c { hd with free := true } }
        match hd.next with
        | some _ => some st1
        | none => backWalk st1 c fuel
    else
      match mget st.mem c with
      | none => none
      | some hd => fwcLoop st target hd.next fuel

/-- Embedding of `free_with_caution` (dynalloc.c lines 145-168). -/
def free_with_caution (st : St) (address : Option Nat) (fuel : Nat) : Option St :=
  match address with
  | none => some st
  | some a => fwcLoop st (submod a HEADER_SIZE) st.first fuel

/-- Byte memory for data regions; an uninitialised byte reads as 0. -/
abbrev BMem := List (Nat × Nat)

/-- Read a data byte. -/
def bget : BMem → Nat → Nat
  | [], _ => 0
  | (b, v) :: rest, a => if a = b then v else bget rest a

/-- Write a data byte. -/
def bupd : BMem → Nat → Nat → BMem
  | [], a, v => [(a, v)]
  | (b, w) :: rest, a, v => if a = b then (a, v) :: rest else (b, w) :: bupd rest a v

/-- The copy loop of `copy_data` (dynalloc.c lines 177-178): ascending byte
copy of `k` bytes from `srcd` to `dstd` (pointer arithmetic mod `W`). -/
def copyLoop (srcd dstd : Nat) : Nat → BMem → BMem
  | 0, bm => bm
  | k + 1, bm => copyLoop ((srcd + 1) % W) ((dstd + 1) % W) k (bupd bm dstd (bget bm srcd))

/-- Embedding of `copy_data` (dynalloc.c lines 173-179): copies exactly
`src->size` bytes (the old block's full data length) from `src`'s data region
to `dst`'s data region. -/
def copy_data (m : Mem) (bm : BMem) (src dst : Nat) : Option BMem :=
  match mget m src with
  | none => none
  | some hd => some (copyLoop ((src + HEADER_SIZE) % W) ((dst + HEADER_SIZE) % W) hd.size bm)

/-- The absorption loop of `realloc` (dynalloc.c lines 203-204):
`while(((header->next)->next)->free) merge_blocks(header->next,
(header->next)->next);` — the guard dereferences `(header->next)->next`
*before* any merge, so a free successor that is the tail crashes (`none`). -/
def reallocAbsorbLoop (m : Mem) (header : Nat) : Nat → Option Mem
  | 0 => none
  | fuel + 1 =>
    match mget m header with
    | none => none
    | some hd =>
      match hd.next with
      | none => none
      | some nx =>
        match mget m nx with
        | none => none
        | some nxh =>
          match nxh.next with
          | none => none
          | some nn =>
            match mget m nn with
            | none => none
            | some nnh =>
              if nnh.free then
                match merge_blocks m nx nn with
                | none => none
                | some (m', _) => reallocAbsorbLoop m' header fuel
              else some m

/-- The fallback path of `realloc` (dynalloc.c lines 212-219): allocate a
fresh block, guard on a null result, copy the old block's full data length,
free the old address, return the new pointer. -/
def reallocFallback (st : St) (bm : BMem) (header a size : Nat) (deny : Bool)
    (fuel : Nat) : Option (St × BMem × Option Nat) :=
  match malloc st size deny fuel with
  | none => none
  | some (st1, new_address) =>
    if new_address = 0 then some (st1, bm, none)
    else
      match copy_data st1.mem bm header (submod new_address HEADER_SIZE) with
      | none => none
      | some bm1 =>
        match free st1 (some a) fuel with
        | none => none
        | some st2 => some (st2, bm1, some new_address)

/-- Embedding of `realloc` (dynalloc.c lines 184-220).  `size_diff` is the
`size_t` difference `size - header->size` (wrapping); the C test
`size_diff < 0` compares an unsigned value against 0 and is therefore never
true, exactly as `size_diff < 0` on `Nat` here.  Then: tail blocks grow the
break (the `sbrk` result is ignored) and have their size overwritten; a free
successor triggers the absorption loop; otherwise the fallback runs. -/
def realloc (st : St) (bm : BMem) (address : Option Nat) (size : Nat)
    (deny : Bool) (fuel : Nat) : Option (St × BMem × Option Nat) :=
  match address with
  | none => some (st, bm, none)
  | some a =>
    let header := submod a HEADER_SIZE
    match mget st.mem header with
    | none => none
    | some hd =>
      let size_diff := submod size hd.size
      if size_diff < 0 then
        match split_block st.mem header size with
        | none => none
        | some (m', _) => some ({ st with mem := m' }, bm, some a)
      else
        match hd.next with
        | none =>
          let p := sbrk st size_diff deny
          match mget p.1.mem header with
          | none => none
          | some hd1 =>
            some ({ p.1 with mem := mupd p.1.mem header { hd1 with size := size } },
                  bm, some a)
        | some nx =>
          match mget st.mem nx with
          | none => none
          | some nxh =>
            if nxh.free then
              match reallocAbsorbLoop st.mem header fuel with
              | none => none
              | some m1 =>
                match mget m1 header with
                | none => none
                | some hd1 =>
                  match hd1.next with
                  | none => none
                  | some nx1 =>
                    match mget m1 nx1 with
                    | none => none
                    | some nxh1 =>
                      if size_diff ≤ nxh1.size then
                        match split_block m1 nx1 size_diff with
                        | none => none
                        | some (m2, _) =>
                          match mget m2 header with
                          | none => none
                          | some hd2 =>
                            match hd2.next with
                            | none => none
                            | some nx2 =>
                              match merge_blocks m2 header nx2 with
                              | none => none
                              | some (m3, _) =>
                                some ({ st with mem := m3 }, bm, some a)
                      else
                        reallocFallback { st with mem := m1 } bm header a size deny fuel
            else reallocFallback st bm header a size deny fuel

/-- Decidable transcript of the `free_with_caution` scan: `true` iff the walk
from the cursor reaches the end of the directory within the fuel without ever
meeting `target`.  This is exactly the path on which the validated deallocator
performs no mutation. -/
def scanMisses (m : Mem) (target : Nat) : Option Nat → Nat → Bool
  | none, _ => true
  | some _, 0 => false
  | some c, fuel + 1 =>
    if c = target then false
    else
      match mget m c with
      | none => false
      | some hd => scanMisses m target hd.next fuel

/-- C1 scenario: a free block of 120 data bytes at 1000, physically followed
by its in-use successor at 1152 = 1000 + 32 + 120. -/
def memC1 : Mem :=
  [(1000, ⟨some 1152, none, 120, true⟩), (1152, ⟨none, some 1000, 32, false⟩)]

/-- The memory `split_block memC1 1000 40` actually produces. -/
def memC1out : Mem :=
  [(1000, ⟨some 1072, none, 120, true⟩), (1152, ⟨none, some 1072, 32, false⟩),
   (1072, ⟨some 1152, some 1000, 72, true⟩)]

/-- C5 scenario: a free block of 80 data bytes at 1000 with successor at 1112. -/
def memC5 : Mem :=
  [(1000, ⟨some 1112, none, 80, true⟩), (1112, ⟨none, some 1000, 32, false⟩)]

/-- The memory `split_block memC5 1000 20` actually produces. -/
def memC5out : Mem :=
  [(1000, ⟨some 1052, none, 80, true⟩), (1112, ⟨none, some 1052, 32, false⟩),
   (1052, ⟨some 1112, some 1000, 52, true⟩)]

/-- C2 and C8 scenario: an in-use block of 64 data bytes at 1000 whose
immediate successor at 1096 is in use, so neither the tail path nor the
absorption path applies. -/
def stC2 : St :=
  ⟨[(1000, ⟨some 1096, none, 64, false⟩), (1096, ⟨none, some 1000, 32, false⟩)],
   some 1000, 1160⟩

/-- C3 scenario: a directory holding a single in-use tail block. -/
def stC3 : St := ⟨[(1000, ⟨none, none, 32, false⟩)], some 1000, 1064⟩

/-- The state `malloc stC3 40 false 10` actually produces. -/
def stC3out : St :=
  ⟨[(1000, ⟨none, none, 32, false⟩), (1064, ⟨none, some 1000, 40, false⟩)],
   some 1000, 1136⟩

/-- C4 scenario A: an empty directory. -/
def stC4a : St := ⟨[], none, 1000⟩

/-- The state `malloc stC4a 40 true 10` (growth denied) actually produces:
a header written through the `sbrk` failure sentinel, now installed as the
directory head. -/
def stC4aout : St := ⟨[(SENTINEL, ⟨none, none, 40, false⟩)], some SENTINEL, 1000⟩

/-- C4 scenario B: a single in-use tail block of 32 data bytes. -/
def stC4b : St := ⟨[(1000, ⟨none, none, 32, false⟩)], some 1000, 1064⟩

/-- The state `realloc stC4b [] (some 1032) 64 true 10` (growth denied)
actually produces: the block's size is overwritten although the OS refused
the extra space. -/
def stC4bout : St := ⟨[(1000, ⟨none, none, 64, false⟩)], some 1000, 1064⟩

/-- C6 witness directory: three physically adjacent blocks at 1000, 1064 and
1128, the middle one free. -/
def memC6 : Mem :=
  [(1000, ⟨some 1064, none, 32, false⟩), (1064, ⟨some 1128, some 1000, 32, true⟩),
   (1128, ⟨none, some 1064, 32, false⟩)]

/-- C7 witness state: a single in-use block. -/
def stC7 : St := ⟨[(1000, ⟨none, none, 32, false⟩)], some 1000, 1064⟩

/-- C9 scenario: the directory holds one free tail block of 100 data bytes,
so the first-fit scan immediately hands it to `split_block`. -/
def stC9 : St := ⟨[(1000, ⟨none, none, 100, true⟩)], some 1000, 1132⟩

/-- C9 witness memory: one free tail header. -/
def memC9w : Mem := [(1000, ⟨none, none, 100, true⟩)]

/-- C10 witness state: an in-use block at 1000 whose free successor at 1064
is the tail of the directory. -/
def stC10 : St :=
  ⟨[(1000, ⟨some 1064, none, 32, false⟩), (1064, ⟨none, some 1000, 32, true⟩)],
   some 1000, 1128⟩

/-- Reading back the address just written returns the new header. -/
theorem mget_mupd_self (m : Mem) (a : Nat) (h : Header) : mget (mupd m a h) a = some h := by
  induction m with
  | nil => simp [mget, mupd]
  | cons p rest ih =>
    obtain ⟨b, g⟩ := p
    by_cases hab : a = b
    · simp [mget, mupd, hab]
    · simp [mget, mupd, hab, ih]

/-- Writing one address leaves every other address unchanged. -/
theorem mget_mupd_ne (m : Mem) (a c : Nat) (h : Header) (hne : c ≠ a) :
    mget (mupd m a h) c = mget m c := by
  induction m with
  | nil => simp [mget, mupd, hne]
  | cons p rest ih =>
    obtain ⟨b, g⟩ := p
    by_cases hab : a = b
    · subst hab
      simp [mget, mupd, hne]
    · by_cases hcb : c = b <;> simp [mget, mupd, hab, hcb, ih]

/-- Reading after a write yields either the written header (aliasing) or the
old content of the read address. -/
theorem mget_mupd_or (m : Mem) (a : Nat) (h : Header) (c : Nat) :
    mget (mupd m a h) c = some h ∨ mget (mupd m a h) c = mget m c := by
  by_cases hca : c = a
  · subst hca
    exact Or.inl (mget_mupd_self m c h)
  · exact Or.inr (mget_mupd_ne m a c h hca)

/-- Claim C1.  The claim says `split(h, n)` gives the remainder size
`h.size - n - header_overhead` and truncates `h.size` to `n`.  The code
disagrees on both points: at `h.size = 120`, `n = 40` (so the claimed
precondition `120 - 40 - header_overhead = 48 ≥ floor` holds) the new free
header is indeed placed 40 bytes into the data region and linked in, but its
size is `120 - 40 - sizeof(Header*) = 72`, not 48, and the split block's own
size stays 120 instead of being truncated to 40. -/
theorem c1_split_block_code_divergence :
    split_block memC1 1000 40 = some (memC1out, some 1072) ∧
    (mget memC1out 1000).map Header.size = some 120 ∧
    (mget memC1out 1072).map Header.size = some 72 ∧
    120 - 40 - header_overhead = 48 ∧ MIN_BLOCK_SIZE ≤ 48 := by
  refine ⟨by decide, by decide, by decide, by decide, by decide⟩

/-- Claim C2.  The claim says a request with `newSize < current size` takes
the in-place shrink path and returns the same pointer.  In the code
`size_diff` has type `size_t`, so `size_diff < 0` is always false and the
shrink branch is dead: at a mid-list block of size 64 with an in-use
successor, `reallocate(p, 32)` runs the allocate-copy-free fallback, marks
the old block free, and returns the different pointer 1192 instead of
p = 1032. -/
theorem c2_realloc_shrink_dead_code :
    (realloc stC2 [] (some 1032) 32 false 20).map (fun r => r.2.2) = some (some 1192) ∧
    (realloc stC2 [] (some 1032) 32 false 20).map
      (fun r => (mget r.1.mem 1000).map Header.free) = some (some true) ∧
    (32 : Nat) < 64 ∧ (1192 : Nat) ≠ 1032 := by
  refine ⟨by decide, by decide, by decide, by decide⟩

/-- Claim C3.  The claim says the header built after heap growth is appended
as the new tail, with the previous tail's `next` pointing at it.  The code
sets `new_block->prev = last` but never sets `last->next`: after
`malloc stC3 40` the new header sits at 1064 with `prev = some 1000`, yet the
old tail's `next` is still `none`, so the new block is unreachable from the
list. -/
theorem c3_malloc_append_unlinked :
    malloc stC3 40 false 10 = some (stC3out, 1096) ∧
    (mget stC3out.mem 1000).map Header.next = some none ∧
    (mget stC3out.mem 1064).map Header.prev = some (some 1000) := by
  refine ⟨by decide, by decide, by decide⟩

/-- Claim C4.  The claim says a denied heap growth yields a null-equivalent
return and an unchanged directory.  The code never checks `sbrk`'s result:
`malloc` on an empty directory with growth denied writes a header through the
`(void*)-1` sentinel, installs it as `first` and returns `31` (≠ null), and
`realloc`'s tail path ignores the denied `sbrk`, overwrites the block's size
with the new size and returns the old pointer. -/
theorem c4_growth_denied_not_null :
    malloc stC4a 40 true 10 = some (stC4aout, 31) ∧ (31 : Nat) ≠ 0 ∧
    stC4aout ≠ stC4a ∧
    realloc stC4b [] (some 1032) 64 true 10 = some (stC4bout, [], some 1032) ∧
    (mget stC4bout.mem 1000).map Header.size = some 64 ∧
    (mget stC4b.mem 1000).map Header.size = some 32 := by
  refine ⟨by decide, by decide, by decide, by decide, by decide, by decide⟩

/-- Claim C5.  The claim says that whenever
`h.size - n - header_overhead < floor` the split is a no-op that returns the
failure indicator and leaves `h` untouched.  At `h.size = 80`, `n = 20` the
claimed remainder `80 - 20 - header_overhead = 28` is below the floor, yet
the code's check uses `sizeof(Header*)` (80 - 20 - 8 = 52 ≥ 32) and goes on
to split, carving out a remainder that claims 52 bytes where only 28 exist. -/
theorem c5_split_floor_check_wrong :
    80 - 20 - header_overhead < MIN_BLOCK_SIZE ∧
    split_block memC5 1000 20 = some (memC5out, some 1052) ∧
    split_block memC5 1000 20 ≠ some (memC5, none) := by
  refine ⟨by decide, by decide, by decide⟩

/-- Claim C8.  The claim says that when the fallback's fresh allocation
fails, `reallocate` returns a failure indicator and leaves the original block
untouched.  Because `malloc` never reports a denied growth, the guard
`if(!new_address)` cannot fire: with growth denied, the fallback copies into
a block fabricated at the sentinel, frees the original block (its free flag
becomes true) and returns the non-null garbage pointer 31. -/
theorem c8_realloc_fallback_failure_leak :
    (realloc stC2 [] (some 1032) 128 true 20).map (fun r => r.2.2) = some (some 31) ∧
    (realloc stC2 [] (some 1032) 128 true 20).map (fun r => r.2.2) ≠ some none ∧
    (realloc stC2 [] (some 1032) 128 true 20).map
      (fun r => (mget r.1.mem 1000).map Header.free) = some (some true) ∧
    (mget stC2.mem 1000).map Header.free = some false := by
  refine ⟨by decide, by decide, by decide, by decide⟩

/-- Claim C6.  For list-adjacent headers `a`, `b` with `b` immediately after
`a` in memory and `b` free, `merge_blocks` sets `a.size` to
`header_size + a.size + b.size`, redirects `a.next` to `b`'s successor,
repoints that successor's `prev` to `a` when it exists, and leaves `a`'s free
flag (and `prev` link) unchanged. -/
theorem c6_merge_blocks_spec (m : Mem) (a b : Nat) (ha hb : Header)
    (h1 : mget m a = some ha) (h2 : mget m b = some hb)
    (hab : a < b)
    (hlist : ha.next = some b)
    (hadj : b = a + HEADER_SIZE + ha.size)
    (hfree : hb.free = true)
    (hsz : HEADER_SIZE + ha.size + hb.size < W)
    (hsucc : ∀ c, hb.next = some c → b < c ∧ (mget m c).isSome) :
    ∃ m', merge_blocks m a b = some (m', a) ∧
      mget m' a = some ⟨hb.next, ha.prev, HEADER_SIZE + ha.size + hb.size, ha.free⟩ ∧
      ∀ c hc, hb.next = some c → mget m c = some hc →
        mget m' c = some { hc with prev := some a } := by
  have hba : ¬ a > b := by omega
  have hbnea : b ≠ a := by omega
  have hmod : (HEADER_SIZE + ha.size + hb.size) % W = HEADER_SIZE + ha.size + hb.size :=
    Nat.mod_eq_of_lt hsz
  have e1 : mget (mupd m a { ha with size := (HEADER_SIZE + ha.size + hb.size) % W }) b
      = some hb := by rw [mget_mupd_ne _ _ _ _ hbnea, h2]
  have e2 : mget (mupd m a { ha with size := (HEADER_SIZE + ha.size + hb.size) % W }) a
      = some { ha with size := (HEADER_SIZE + ha.size + hb.size) % W } :=
    mget_mupd_self _ _ _
  have e3 : mget (mupd (mupd m a { ha with size := (HEADER_SIZE + ha.size + hb.size) % W })
      a ⟨hb.next, ha.prev, (HEADER_SIZE + ha.size + hb.size) % W, ha.free⟩) b = some hb := by
    rw [mget_mupd_ne _ _ _ _ hbnea, mget_mupd_ne _ _ _ _ hbnea, h2]
  have e4 : mget (mupd (mupd m a { ha with size := (HEADER_SIZE + ha.size + hb.size) % W })
      a ⟨hb.next, ha.prev, (HEADER_SIZE + ha.size + hb.size) % W, ha.free⟩) a
      = some ⟨hb.next, ha.prev, (HEADER_SIZE + ha.size + hb.size) % W, ha.free⟩ :=
    mget_mupd_self _ _ _
  cases hnx : hb.next with
  | none =>
    rw [hnx] at e3 e4
    refine ⟨mupd (mupd m a { ha with size := (HEADER_SIZE + ha.size + hb.size) % W })
      a ⟨none, ha.prev, (HEADER_SIZE + ha.size + hb.size) % W, ha.free⟩, ?_, ?_, ?_⟩
    · simp only [merge_blocks, h1, h2, if_neg hba, e1, e2, e3, hnx]
    · rw [e4, hmod]
    · intro c hc hcn
      cases hcn
  | some c =>
    rw [hnx] at e3 e4
    obtain ⟨hbc, hcs⟩ := hsucc c hnx
    obtain ⟨hc0, hc0eq⟩ := Option.isSome_iff_exists.mp hcs
    have hcnea : c ≠ a := by omega
    have e5 : mget (mupd (mupd m a { ha with size := (HEADER_SIZE + ha.size + hb.size) % W })
        a ⟨some c, ha.prev, (HEADER_SIZE + ha.size + hb.size) % W, ha.free⟩) c
        = some hc0 := by
      rw [mget_mupd_ne _ _ _ _ hcnea, mget_mupd_ne _ _ _ _ hcnea, hc0eq]
    refine ⟨mupd (mupd (mupd m a { ha with size := (HEADER_SIZE + ha.size + hb.size) % W })
      a ⟨some c, ha.prev, (HEADER_SIZE + ha.size + hb.size) % W, ha.free⟩)
      c { hc0 with prev := some a }, ?_, ?_, ?_⟩
    · simp only [merge_blocks, h1, h2, if_neg hba, e1, e2, e3, hnx, e5]
    · rw [mget_mupd_ne _ _ _ _ (Ne.symm hcnea), e4, hmod]
    · intro c' hc' hcn hgc
      cases hcn
      rw [hc0eq] at hgc
      cases hgc
      exact mget_mupd_self _ _ _

/-- Witness for C6 at a concrete three-block directory. -/
theorem c6_witness :
    ∃ m', merge_blocks memC6 1000 1064 = some (m', 1000) ∧
      mget m' 1000 = some ⟨some 1128, none, HEADER_SIZE + 32 + 32, false⟩ ∧
      ∀ c hc, (some 1128 : Option Nat) = some c → mget memC6 c = some hc →
        mget m' c = some { hc with prev := some 1000 } :=
  c6_merge_blocks_spec memC6 1000 1064 ⟨some 1064, none, 32, false⟩
    ⟨some 1128, some 1000, 32, true⟩ (by decide) (by decide) (by decide) (by decide)
    (by decide) (by decide) (by decide)
    (by intro c hcn
        cases hcn
        exact ⟨by decide, by decide⟩)

/-- The scan of `free_with_caution` mutates nothing as long as it has not
found the target: if the walk reaches the end of the list without meeting the
target, the state comes back unchanged. -/
theorem fwcLoop_miss (st : St) (t : Nat) :
    ∀ (fuel : Nat) (c : Option Nat), scanMisses st.mem t c fuel = true →
      fwcLoop st t c fuel = some st := by
  intro fuel
  induction fuel with
  | zero =>
    intro c h
    cases c with
    | none => rfl
    | some c => simp [scanMisses] at h
  | succ k ih =>
    intro c h
    cases c with
    | none => rfl
    | some c =>
      by_cases hct : c = t
      · simp [scanMisses, hct] at h
      · cases hm : mget st.mem c with
        | none => simp [scanMisses, hct, hm] at h
        | some hd =>
          have h' : scanMisses st.mem t hd.next k = true := by
            simpa [scanMisses, hct, hm] using h
          simpa [fwcLoop, hct, hm] using ih hd.next h'

/-- Claim C7.  `free(NULL)` and `free_with_caution(NULL)` are no-ops, and
`free_with_caution` on an address whose recovered header is met by no tracked
header during the scan returns with the whole state — headers, links, sizes,
free flags, `first`, and the break — unchanged. -/
theorem c7_deallocate_validated_noop (st : St) (a fuel : Nat)
    (hmiss : scanMisses st.mem (submod a HEADER_SIZE) st.first fuel = true) :
    free st none fuel = some st ∧
    free_with_caution st none fuel = some st ∧
    free_with_caution st (some a) fuel = some st := by
  refine ⟨rfl, rfl, ?_⟩
  exact fwcLoop_miss st _ fuel st.first hmiss

/-- Witness for C7: a foreign address over a one-block directory. -/
theorem c7_witness :
    free stC7 none 3 = some stC7 ∧
    free_with_caution stC7 none 3 = some stC7 ∧
    free_with_caution stC7 (some 5000) 3 = some stC7 :=
  c7_deallocate_validated_noop stC7 5000 3 (by decide)

/-- Claim C9.  Whenever the remainder check of `split_block` passes but the
split block has no successor, the unconditional statement
`(header->next)->prev = new_header` dereferences a null pointer, so the
result is undefined (`none`); and `malloc` does reach this state: on a
directory whose only block is free, large enough and the tail, the first-fit
scan calls `split_block` on it and crashes. -/
theorem c9_split_tail_null_deref :
    (∀ (m : Mem) (h n : Nat) (hd : Header),
        mget m h = some hd → hd.next = none →
        ¬ submod (submod hd.size n) PTR_SIZE < MIN_BLOCK_SIZE →
        split_block m h n = none)
    ∧ malloc stC9 40 false 10 = none := by
  constructor
  · intro m h n hd hm hnone hbig
    simp only [split_block, hm, if_neg hbig, hnone]
    rcases mget_mupd_or m ((h + HEADER_SIZE + n) % W)
        ⟨none, some h, submod (submod hd.size n) PTR_SIZE, true⟩ h with e | e
    · simp only [e]
    · rw [hm] at e
      simp only [e, hnone]
  · decide

/-- Witness for C9's universal part at a one-block directory. -/
theorem c9_witness : split_block memC9w 1000 40 = none :=
  c9_split_tail_null_deref.1 memC9w 1000 40 ⟨none, none, 100, true⟩
    (by decide) (by decide) (by decide)

/-- The guard of the absorption loop dereferences the successor's successor
before any merge, so a free successor that is the tail crashes at once,
whatever the fuel. -/
theorem reallocAbsorbLoop_tail_crash (m : Mem) (header b : Nat) (hd hb : Header)
    (h1 : mget m header = some hd) (h2 : hd.next = some b)
    (h3 : mget m b = some hb) (h5 : hb.next = none) :
    ∀ fuel, reallocAbsorbLoop m header fuel = none := by
  intro fuel
  cases fuel with
  | zero => rfl
  | succ k => simp [reallocAbsorbLoop, h1, h2, h3, h5]

/-- Claim C10.  For a tracked, non-tail block whose immediate successor is
free, the absorption path of `realloc` reads `((header->next)->next)->free`
before any merge; when the free successor is the tail its `next` is null and
the read crashes, for every requested size, denial flag and fuel. -/
theorem c10_realloc_absorb_null_deref (st : St) (bm : BMem) (a n b : Nat)
    (deny : Bool) (fuel : Nat) (hd hb : Header)
    (h1 : mget st.mem (submod a HEADER_SIZE) = some hd)
    (h2 : hd.next = some b)
    (h3 : mget st.mem b = some hb)
    (h4 : hb.free = true)
    (h5 : hb.next = none) :
    realloc st bm (some a) n deny fuel = none := by
  have hloop := reallocAbsorbLoop_tail_crash st.mem (submod a HEADER_SIZE) b hd hb h1 h2 h3 h5 fuel
  simp only [realloc, h1, h2, h3, h4, if_neg (Nat.not_lt_zero _), hloop, if_pos]

/-- Witness for C10: a free tail successor, concrete state. -/
theorem c10_witness : realloc stC10 [] (some 1032) 100 false 5 = none :=
  c10_realloc_absorb_null_deref stC10 [] 1032 100 1064 false 5
    ⟨some 1064, none, 32, false⟩ ⟨none, some 1000, 32, true⟩
    (by decide) (by decide) (by decide) (by decide) (by decide)

end Dynalloc
